import Mathlib

/-!
Shallow embedding of the multi-agent session orchestrator
(KarmaENT/degenzplayground) for verification of its specification.

Conventions used throughout:
- Python SQLAlchemy rows become Lean structures; the database session
  becomes an explicit `DB` record of tables (lists of rows, in insertion
  order, matching the default query order of the source).
- `query(...).filter(...).first()` becomes `List.find?`; `.all()` becomes
  `List.filter`; `.count()` becomes `(List.filter ...).length`.
- HTTP ids are `Nat` (wire-level string session ids are modelled as the
  parsed integer; the `int(session_id)` conversion of the source is
  implicit in the type).
- The Generation Oracle (Gemini via LangChain) is a parameter
  `oracle : String -> Except String String` mapping the fully rendered
  prompt to either generated text or a raised exception message.
- Python `json.loads` is a parameter `jsonLoads : String -> Option Json`;
  `none` models a raised `json.JSONDecodeError`.
- Fallible endpoints return `Except HttpErr ...`; an `HTTPException`
  becomes `Except.error ⟨status, detail⟩`.
-/

/-- Python timestamps (`func.now()`, `created_at`) are modelled as a
`Nat` tick taken from the database clock. -/
abbrev Timestamp := Nat

/-- JSON values, modelling the Python `json` module values and the dict
payloads sent over `send_json`. -/
inductive Json where
  | null
  | bool (b : Bool)
  | num (n : Int)
  | str (s : String)
  | arr (elems : List Json)
  | obj (fields : List (String × Json))
deriving Repr

/-- `d.get(k)` on a Python dict (returns `None` when absent, modelled as
`Option`); on a non-dict value Python raises AttributeError, modelled by
the callers. -/
def Json.getField (j : Json) (k : String) : Option Json :=
  match j with
  | .obj fields => (fields.find? (fun f => f.1 == k)).map (·.2)
  | _ => none

/-- Python `str(x)` on a JSON value (used in f-strings and comparisons). -/
def Json.pyStr (j : Json) : String :=
  match j with
  | .null => "None"
  | .bool b => if b then "True" else "False"
  | .num n => toString n
  | .str s => s
  | .arr _ => "[...]"
  | .obj _ => "\x7b...\x7d"

/-- Python `int(x)` on a JSON value; raises (models ValueError/TypeError)
when the value is not an int or an integer-shaped string. -/
def Json.pyInt (j : Json) : Except String Int :=
  match j with
  | .num n => .ok n
  | .str s =>
    match s.toInt? with
    | some n => .ok n
    | none => .error "ValueError: invalid literal for int()"
  | _ => .error "TypeError: int() argument"

/-- An HTTPException raised by an endpoint: status code and detail. -/
structure HttpErr where
  status : Nat
  detail : String
deriving Repr, DecidableEq

/-! ## Data model (src/models.py and src/collaboration_models.py) -/

/-- `models.MessageType` (src/collaboration_models.py). -/
inductive MessageType where
  | USER
  | AGENT
  | AGENT_TO_AGENT
  | SYSTEM
  | CONFLICT_RESOLUTION
  | WORKFLOW
deriving Repr, DecidableEq

/-- A row of `agents` (`models.Agent`). `examples` is a JSON column. -/
structure AgentRec where
  id : Nat
  name : String
  role : String
  personality : String
  system_instructions : String
  examples : Json
  owner_id : Nat
deriving Repr

/-- A row of `sessions` (`models.Session`). -/
structure SessionRec where
  id : Nat
  name : String
  description : String
  owner_id : Nat
  is_active : Bool
deriving Repr, DecidableEq

/-- A row of `session_agents` (`models.SessionAgent`). -/
structure SessionAgentRec where
  id : Nat
  session_id : Nat
  agent_id : Nat
  is_manager : Bool
deriving Repr, DecidableEq

/-- A row of `messages` (`models.Message`).  `message_type` is the column
used by src/conflict_resolution.py via `models.MessageType`; the copy of
`models.Message` in src/models.py predates it, so it is optional here. -/
structure MessageRec where
  id : Nat
  content : String
  session_id : Nat
  session_agent_id : Option Nat
  user_id : Option Nat
  parent_id : Option Nat
  message_type : Option MessageType
  created_at : Timestamp
deriving Repr, DecidableEq

/-- The JSON `resolution_data` blob of a `ConflictResolution` row, as a
tagged union of the dict shapes the source actually stores in it:
the raw client-provided dict (of which only its `options` list is ever
read), the voting dict, the manager-decision outcome dicts, and the
consensus dict. -/
inductive ResolutionData where
  /-- client-provided blob; the code reads only `.get("options", [])` -/
  | client (options : List String)
  /-- `{votes, total_votes, options, status}` plus, after completion,
  `result` and `vote_counts`.  `votes` is a Python dict keyed by
  `str(agent_id)`, modelled as an insertion-ordered association list. -/
  | voting (votes : List (Nat × String)) (total_votes : Nat)
      (options : List String) (status : String)
      (result : Option (Option String)) (vote_counts : Option (List (String × Nat)))
  /-- `{"manager_decision": ..., "status": "resolved"}` -/
  | managerDecision (decision : String) (status : String)
  /-- `{"error": ..., "status": "failed"}` -/
  | managerError (error : String) (status : String)
  /-- `{proposals, rounds, status}` -/
  | consensus (proposals : List (Nat × String)) (rounds : Nat) (status : String)
deriving Repr, DecidableEq

/-- `resolution_data.get("status")` as the source reads it. -/
def ResolutionData.getStatus : ResolutionData → Option String
  | .client _ => none
  | .voting _ _ _ status _ _ => some status
  | .managerDecision _ status => some status
  | .managerError _ status => some status
  | .consensus _ _ status => some status

/-- A row of `conflict_resolutions` (`models.ConflictResolution`,
src/collaboration_models.py). -/
structure ConflictResolutionRec where
  id : Nat
  session_id : Nat
  conflict_message_id : Nat
  resolution_method : String
  resolution_data : ResolutionData
  resolved_by_agent_id : Option Nat
  resolution_message_id : Option Nat
  created_at : Timestamp
  resolved_at : Option Timestamp
deriving Repr, DecidableEq

/-- The database state visible to the endpoints: one list per table (in
insertion order), a primary-key allocator and a clock for
`func.now()` / `created_at` defaults. -/
structure DB where
  agents : List AgentRec
  sessions : List SessionRec
  session_agents : List SessionAgentRec
  messages : List MessageRec
  conflict_resolutions : List ConflictResolutionRec
  next_id : Nat
  now : Timestamp
deriving Repr

/-- Number of `SessionAgent` rows of a session —
`db.query(models.SessionAgent).filter(session_id == sid).count()`. -/
def DB.sessionAgentCount (db : DB) (sid : Nat) : Nat :=
  (db.session_agents.filter (fun sa => sa.session_id == sid)).length

/-- Number of manager `SessionAgent` rows of a session. -/
def DB.managerCount (db : DB) (sid : Nat) : Nat :=
  (db.session_agents.filter (fun sa => sa.session_id == sid && sa.is_manager)).length

/-- The at-most-one-manager-per-session invariant (spec §3, §8). -/
def DB.atMostOneManager (db : DB) : Prop :=
  ∀ sid : Nat, db.managerCount sid ≤ 1

/-! ## Session Registry (src/connection.py, src/server.py)

Both `ConnectionManager` (src/connection.py) and `WebSocketManager`
(src/server.py) keep `active_connections: Dict[str, Dict[str, WebSocket]]`.
A Python dict is modelled as an insertion-ordered association list (no
duplicate keys arise from the operations themselves).  A `WebSocket`
object is an opaque handle, modelled as a `Nat`.  Delivery of a payload
over a socket (`send_json`) is modelled as an emitted `Delivery` record,
so a call that sends messages returns the list of deliveries it performed,
in order. -/

/-- An opaque WebSocket handle. -/
abbrev WS := Nat

/-- `active_connections`: session id -> (client id -> websocket). -/
abbrev Registry := List (Nat × List (String × WS))

/-- One `send_json` call: (session id, client id, payload). -/
structure Delivery where
  session_id : Nat
  client_id : String
  payload : Json
deriving Repr

/-- Set `d[k] = v` on a Python dict modelled as an association list:
overwrite in place if the key is present (keeping its position), else
append. -/
def dictSet {α : Type} (k : String) (v : α) : List (String × α) → List (String × α)
  | [] => [(k, v)]
  | (k', v') :: rest =>
    if k' == k then (k', v) :: rest else (k', v') :: dictSet k v rest

/-- `registry[sid]` lookup (first match). -/
def Registry.lookup (reg : Registry) (sid : Nat) : Option (List (String × WS)) :=
  (reg.find? (fun e => e.1 == sid)).map (·.2)

/-- Apply `f` to the inner dict of session `sid` (first match). -/
def Registry.update (reg : Registry) (sid : Nat)
    (f : List (String × WS) → List (String × WS)) : Registry :=
  match reg with
  | [] => []
  | (s, inner) :: rest =>
    if s == sid then (s, f inner) :: rest else (s, inner) :: Registry.update rest sid f

/-- `ConnectionManager.connect` (src/connection.py lines 13-20) and the
registry mutation of `WebSocketManager.connect` (src/server.py lines
25-32): accept the socket, create the session entry if absent, then
`active_connections[session_id][client_id] = websocket`. -/
def ConnectionManager.connect (reg : Registry) (ws : WS) (session_id : Nat)
    (client_id : String) : Registry :=
  let reg1 := if (reg.find? (fun e => e.1 == session_id)).isSome then reg
              else reg ++ [(session_id, [])]
  reg1.update session_id (dictSet client_id ws)

/-- `ConnectionManager.disconnect` (src/connection.py lines 22-30): drop
the client entry, and reap the session entry once empty. -/
def ConnectionManager.disconnect (reg : Registry) (session_id : Nat)
    (client_id : String) : Registry :=
  match Registry.lookup reg session_id with
  | none => reg
  | some inner =>
    let inner' := inner.filter (fun e => !(e.1 == client_id))
    if inner'.isEmpty then reg.filter (fun e => !(e.1 == session_id))
    else reg.update session_id (fun _ => inner')

/-- `ConnectionManager.send_message` (src/connection.py lines 32-42):
targeted delivery when `client_id` is given (silent no-op when the target
is absent), fan-out to every connection of the session otherwise. -/
def ConnectionManager.send_message (reg : Registry) (message : Json)
    (session_id : Nat) (client_id : Option String) : List Delivery :=
  match Registry.lookup reg session_id with
  | none => []
  | some inner =>
    match client_id with
    | some c =>
      if (inner.find? (fun e => e.1 == c)).isSome then [⟨session_id, c, message⟩] else []
    | none => inner.map (fun e => ⟨session_id, e.1, message⟩)

/-- `ConnectionManager.broadcast_agent_message` (src/connection.py lines
44-54): wrap in an `agent_message` envelope and fan out. -/
def ConnectionManager.broadcast_agent_message (reg : Registry) (message : Json)
    (session_id : Nat) : List Delivery :=
  match Registry.lookup reg session_id with
  | none => []
  | some inner =>
    let formatted := Json.obj [("type", Json.str "agent_message"), ("data", message)]
    inner.map (fun e => ⟨session_id, e.1, formatted⟩)

/-- `WebSocketManager.broadcast_notification` (src/server.py lines 57-63):
fan the payload out unmodified. -/
def WebSocketManager.broadcast_notification (reg : Registry) (session_id : Nat)
    (notification : Json) : List Delivery :=
  match Registry.lookup reg session_id with
  | none => []
  | some inner => inner.map (fun e => ⟨session_id, e.1, notification⟩)

/-- `WebSocketManager.broadcast_agent_message` (src/server.py lines 65-75). -/
def WebSocketManager.broadcast_agent_message (reg : Registry) (session_id : Nat)
    (message : Json) : List Delivery :=
  match Registry.lookup reg session_id with
  | none => []
  | some inner =>
    let formatted := Json.obj [("type", Json.str "agent_message"), ("data", message)]
    inner.map (fun e => ⟨session_id, e.1, formatted⟩)

/-- `WebSocketManager.send_direct_message` (src/server.py lines 77-82):
deliver to one client; silent no-op when session or client is absent. -/
def WebSocketManager.send_direct_message (reg : Registry) (session_id : Nat)
    (client_id : String) (message : Json) : List Delivery :=
  match Registry.lookup reg session_id with
  | none => []
  | some inner =>
    if (inner.find? (fun e => e.1 == client_id)).isSome
    then [⟨session_id, client_id, message⟩] else []

/-- `WebSocketManager.connect` (src/server.py lines 25-43): same registry
mutation as `ConnectionManager.connect`, followed by a connection
notification broadcast.  Returns the new registry and the deliveries. -/
def WebSocketManager.connect (reg : Registry) (ws : WS) (session_id : Nat)
    (client_id : String) : Registry × List Delivery :=
  let reg' := ConnectionManager.connect reg ws session_id client_id
  let note := Json.obj [("type", Json.str "connection"),
    ("client_id", Json.str client_id),
    ("message", Json.str ("Client " ++ client_id ++ " connected"))]
  (reg', WebSocketManager.broadcast_notification reg' session_id note)

/-- An inbound wire envelope, restricted to the fields the handlers read
(`data.get("type")`, `data.get("content", "")`, `data.get("agent_id")`,
`data.get("agent_name", "Unknown Agent")`).  A field that is absent in
the JSON dict is `none`. -/
structure WireMessage where
  type_field : Option String
  content : Option String
  agent_id : Option Json
  agent_name : Option String
deriving Repr

/-- `WebSocketService.handle_message` (src/connection.py lines 64-105):
echo broadcast for `user_message`, join broadcast for `agent_added`, and
a targeted error envelope for any other type. -/
def WebSocketService.handle_message (reg : Registry) (data : WireMessage)
    (session_id : Nat) (client_id : String) : List Delivery :=
  if data.type_field == some "user_message" then
    let user_message := data.content.getD ""
    ConnectionManager.broadcast_agent_message reg
      (Json.obj [("content", Json.str ("Received: " ++ user_message)),
        ("agent_name", Json.str "Echo Agent"),
        ("agent_role", Json.str "Echo")]) session_id
  else if data.type_field == some "agent_added" then
    let agent_name := data.agent_name.getD "Unknown Agent"
    ConnectionManager.broadcast_agent_message reg
      (Json.obj [("content", Json.str ("Agent " ++ agent_name ++ " has joined the session")),
        ("agent_name", Json.str "System"),
        ("agent_role", Json.str "Notification")]) session_id
  else
    ConnectionManager.send_message reg
      (Json.obj [("type", Json.str "error"),
        ("message", Json.str ("Unknown message type: " ++
          (match data.type_field with | some s => s | none => "None")))])
      session_id (some client_id)

/-! ## Generation Oracle services (src/gemini_service.py, src/manager_agent.py)

The LLM behind LangChain is the external Generation Oracle, modelled as a
parameter `oracle : String -> Except String String` from the fully
rendered prompt to generated text (`.error` models a raised exception).
`json.loads` is a parameter `jsonLoads : String -> Option Json` (`none`
models `json.JSONDecodeError`).  The indentation of the triple-quoted
Python template literals is not reproduced; their line text is. -/

/-- The Oracle: rendered prompt to generated text or raised error. -/
abbrev Oracle := String → Except String String

/-- A JSON parser standing for Python `json.loads`. -/
abbrev JsonLoads := String → Option Json

/-- The persona dicts passed around as `agent_data` / `available_agents`
(keys id, name, role, personality, system_instructions, examples). -/
structure AgentData where
  id : Nat
  name : String
  role : String
  personality : String
  system_instructions : String
  examples : Json
deriving Repr

/-- The `agent_data` dict built from an `Agent` row (src/server.py lines
140-147 and 190-197, src/conflict_resolution.py lines 120-127). -/
def AgentRec.toData (a : AgentRec) : AgentData :=
  ⟨a.id, a.name, a.role, a.personality, a.system_instructions, a.examples⟩

/-- Python `x or default` on an optional string (`None` and `""` are
falsy). -/
def pyOr (s : Option String) (default : String) : String :=
  match s with
  | none => default
  | some s' => if s' == "" then default else s'

/-- The prompt template of `GeminiService.generate_response`
(src/gemini_service.py lines 28-34). -/
def generateTemplate (prompt : String) (system_instructions : String) : String :=
  system_instructions ++ "\n\nUser: " ++ prompt ++ "\n\nAssistant:\n"

/-- `GeminiService.generate_response` (src/gemini_service.py lines 23-50):
render the template (with the default system instructions when the given
ones are falsy) and make one Oracle call. -/
def GeminiService.generate_response (oracle : Oracle) (prompt : String)
    (system_instructions : Option String) : Except String String :=
  oracle (generateTemplate prompt (pyOr system_instructions "You are a helpful AI assistant."))

/-- The persona system instructions of `GeminiService.apply_agent_persona`
(src/gemini_service.py lines 56-65). -/
def personaInstructions (agent : AgentData) : String :=
  "You are an AI assistant with the following characteristics:\n" ++
  "Name: " ++ agent.name ++ "\n" ++
  "Role: " ++ agent.role ++ "\n" ++
  "Personality: " ++ agent.personality ++ "\n\n" ++
  agent.system_instructions ++ "\n\n" ++
  "Respond in character, maintaining the personality and role described above."

/-- `GeminiService.apply_agent_persona` (src/gemini_service.py lines
52-70): one persona-flavoured Oracle call, result prefixed with the
persona name and role. -/
def GeminiService.apply_agent_persona (oracle : Oracle) (prompt : String)
    (agent : AgentData) : Except String String :=
  (GeminiService.generate_response oracle prompt (some (personaInstructions agent))).map
    (fun response => agent.name ++ " (" ++ agent.role ++ "): " ++ response)

/-- The JSON-format block shared by the delegation prompts
(src/gemini_service.py lines 97-106, src/manager_agent.py lines 32-41). -/
def delegationFormatBlock : String :=
  "Your response should be in the following JSON format:\n" ++
  "\x7b\n" ++
  "    \"thought\": \"your reasoning process\",\n" ++
  "    \"assigned_agents\": [\n" ++
  "        \x7b\n" ++
  "            \"agent_id\": \"id of the agent\",\n" ++
  "            \"task\": \"specific task for this agent\"\n" ++
  "        \x7d\n" ++
  "    ]\n" ++
  "\x7d"

/-- The system instructions of `LangChainService.run_manager_workflow`
(src/gemini_service.py lines 83-107). -/
def managerWorkflowInstructions (available_agents : List AgentData) : String :=
  let agents_str := String.intercalate "\n" (available_agents.map (fun a =>
    "ID: " ++ toString a.id ++ ", Name: " ++ a.name ++ ", Role: " ++ a.role ++
    ", Personality: " ++ a.personality))
  "You are a Manager Agent responsible for orchestrating tasks between different AI agents.\n\n" ++
  "Available agents:\n" ++ agents_str ++ "\n\n" ++
  "Based on the user message, decide which agent(s) should handle this task.\n\n" ++
  delegationFormatBlock

/-- The fallback plan returned when the delegation output is not valid
JSON (src/gemini_service.py lines 117-121, src/manager_agent.py lines
65-69). -/
def parseFailurePlan : Json :=
  Json.obj [("thought", Json.str "Failed to parse response"),
    ("assigned_agents", Json.arr [])]

/-- `LangChainService.run_manager_workflow` (src/gemini_service.py lines
79-121): one Oracle call, JSON-parse the response, and on
`json.JSONDecodeError` return the empty-assignment fallback instead of
raising. -/
def LangChainService.run_manager_workflow (oracle : Oracle) (jsonLoads : JsonLoads)
    (user_message : String) (available_agents : List AgentData) : Except String Json :=
  match GeminiService.generate_response oracle user_message
      (some (managerWorkflowInstructions available_agents)) with
  | .error e => .error e
  | .ok response =>
    match jsonLoads response with
    | some result => .ok result
    | none => .ok parseFailurePlan

/-- `LangChainService.run_agent_workflow` (src/gemini_service.py lines
123-127). -/
def LangChainService.run_agent_workflow (oracle : Oracle) (agent : AgentData)
    (task : String) : Except String String :=
  GeminiService.apply_agent_persona oracle task agent

/-- A response dict as consumed by `resolve_conflicts`
(`.get("agent_name", "Unknown")`, `.get("content", "")`). -/
structure RespDict where
  agent_name : Option String
  content : Option String
deriving Repr, DecidableEq

/-- The system instructions of `LangChainService.resolve_conflicts`
(src/gemini_service.py lines 142-155). -/
def resolveConflictsInstructions (responses : List RespDict) : String :=
  let responses_str := String.intercalate "\n\n" (responses.enum.map (fun p =>
    "Agent " ++ toString (p.1 + 1) ++ " (" ++ p.2.agent_name.getD "Unknown" ++ "): " ++
    p.2.content.getD ""))
  "You are a Conflict Resolution Agent responsible for evaluating multiple agent responses and selecting the best one.\n\n" ++
  "Agent responses:\n" ++ responses_str ++ "\n\n" ++
  "Evaluate the responses and select the best one. If there are conflicts, resolve them by combining the best parts of each response.\n\n" ++
  "Your response should be in the following JSON format:\n" ++
  "\x7b\n" ++
  "    \"thought\": \"your reasoning process\",\n" ++
  "    \"result\": \"the final resolved response\"\n" ++
  "\x7d"

/-- `LangChainService.resolve_conflicts` (src/gemini_service.py lines
129-169).  Returns the result value together with the number of Oracle
calls made.  An empty response list returns a fixed result with zero
Oracle calls; an unparseable synthesis output falls back to the first
response content. -/
def LangChainService.resolve_conflicts (oracle : Oracle) (jsonLoads : JsonLoads)
    (responses : List RespDict) : (Except String Json) × Nat :=
  match responses with
  | [] => (.ok (Json.obj [("result", Json.str "No responses to resolve")]), 0)
  | first :: _ =>
    match GeminiService.generate_response oracle
        "Resolve the conflicts between these agent responses."
        (some (resolveConflictsInstructions responses)) with
    | .error e => (.error e, 1)
    | .ok response =>
      match jsonLoads response with
      | some result => (.ok result, 1)
      | none =>
        (.ok (Json.obj [("thought", Json.str "Failed to parse response"),
          ("result", Json.str (first.content.getD "No valid response"))]), 1)

/-- The prompt template of `ManagerAgent._create_agent_executor`
(src/manager_agent.py lines 22-42), rendered by
`ManagerAgent.process_message` (lines 56-59). -/
def managerAgentPrompt (agents_str : String) (user_message : String) : String :=
  "You are a Manager Agent responsible for orchestrating tasks between different AI agents.\n\n" ++
  "Current agents in the sandbox:\n" ++ agents_str ++ "\n\n" ++
  "User message: " ++ user_message ++ "\n\n" ++
  "Based on the user message and available agents, decide which agent(s) should handle this task.\n\n" ++
  delegationFormatBlock

/-- The fully rendered prompt of `ManagerAgent.process_message`
(src/manager_agent.py lines 56-59). -/
def managerAgentRendered (user_message : String) (available_agents : List AgentData) : String :=
  let agents_str := String.intercalate "\n" (available_agents.map (fun a =>
    "ID: " ++ toString a.id ++ ", Name: " ++ a.name ++ ", Role: " ++ a.role))
  managerAgentPrompt agents_str user_message

/-- `ManagerAgent.process_message` (src/manager_agent.py lines 52-69):
one LLM call on the rendered prompt, JSON-parse, and on parse failure
return the empty-assignment fallback instead of raising. -/
def ManagerAgent.process_message (oracle : Oracle) (jsonLoads : JsonLoads)
    (user_message : String) (available_agents : List AgentData) : Except String Json :=
  match oracle (managerAgentRendered user_message available_agents) with
  | .error e => .error e
  | .ok response =>
    match jsonLoads response with
    | some result => .ok result
    | none => .ok parseFailurePlan

/-- `ManagerAgent.resolve_conflicts` (src/manager_agent.py lines 71-81):
no Oracle call at all; empty input gives the fixed result, otherwise the
first response content (`responses[0]["content"]`, a direct index that
raises KeyError when the key is absent) is returned. -/
def ManagerAgent.resolve_conflicts (responses : List RespDict) : Except String Json :=
  match responses with
  | [] => .ok (Json.obj [("result", Json.str "No responses to resolve")])
  | first :: _ =>
    match first.content with
    | some c => .ok (Json.obj [("result", Json.str c)])
    | none => .error "KeyError: content"

/-! ## Sandbox endpoints (src/sandbox.py) -/

/-- `schemas.MessageCreate` (src/schemas.py lines 44-52). -/
structure MessageCreate where
  content : String
  session_id : Nat
  session_agent_id : Option Nat
  user_id : Option Nat
  parent_id : Option Nat
deriving Repr, DecidableEq

/-- `add_agent_to_session` (src/sandbox.py lines 54-103): guards
(session/agent existence and ownership, duplicate membership, duplicate
manager) followed by the insert. -/
def Sandbox.add_agent_to_session (db : DB) (current_user : Nat) (session_id : Nat)
    (agent_id : Nat) (is_manager : Bool) : DB × Except HttpErr Unit :=
  match db.sessions.find? (fun s => s.id == session_id && s.owner_id == current_user) with
  | none => (db, .error ⟨404, "Session not found"⟩)
  | some _ =>
    match db.agents.find? (fun a => a.id == agent_id && a.owner_id == current_user) with
    | none => (db, .error ⟨404, "Agent not found"⟩)
    | some _ =>
      if (db.session_agents.find? (fun sa =>
          sa.session_id == session_id && sa.agent_id == agent_id)).isSome then
        (db, .error ⟨400, "Agent already in session"⟩)
      else if is_manager && (db.session_agents.find? (fun sa =>
          sa.session_id == session_id && sa.is_manager)).isSome then
        (db, .error ⟨400, "Session already has a manager agent"⟩)
      else
        let session_agent : SessionAgentRec := ⟨db.next_id, session_id, agent_id, is_manager⟩
        ({ db with session_agents := db.session_agents ++ [session_agent],
                   next_id := db.next_id + 1 }, .ok ())

/-- `send_message` (src/sandbox.py lines 105-143): after the session
ownership guard the message is stored with the client-supplied
`parent_id` as-is; the source performs no validation of the parent at
all.  The trailing manager lookup of the source has no effect (`pass`). -/
def Sandbox.send_message (db : DB) (current_user : Nat) (session_id : Nat)
    (message : MessageCreate) : DB × Except HttpErr MessageRec :=
  match db.sessions.find? (fun s => s.id == session_id && s.owner_id == current_user) with
  | none => (db, .error ⟨404, "Session not found"⟩)
  | some _ =>
    let db_message : MessageRec :=
      ⟨db.next_id, message.content, session_id, none, some current_user,
        message.parent_id, none, db.now⟩
    ({ db with messages := db.messages ++ [db_message], next_id := db.next_id + 1 },
     .ok db_message)

/-! ## Conflict resolution endpoints (src/conflict_resolution.py)

Two notes on fidelity:
- `src/conflict_resolution.py` never imports `func`, so the two
  `func.now()` occurrences (lines 146 and 295) would raise `NameError` at
  runtime; the embedding models the evident intent
  (`sqlalchemy.sql.func.now()`, as imported in src/models.py), i.e. the
  current clock value.
- the JSON `resolution_data` dict is represented by the typed
  `ResolutionData` union of the shapes the code stores in it. -/

/-- `schemas.ConflictResolutionCreate` as used by the endpoint (fields
read: session_id, conflict_message_id, resolution_method,
resolution_data — of which only the `options` entry is ever read — and
resolved_by_agent_id). -/
structure ConflictResolutionCreate where
  session_id : Nat
  conflict_message_id : Nat
  resolution_method : String
  resolution_data_options : List String
  resolved_by_agent_id : Option Nat
deriving Repr, DecidableEq

/-- Replace the row with the same id (mirrors mutating the ORM object
and committing). -/
def updateCRTable (table : List ConflictResolutionRec) (rec : ConflictResolutionRec) :
    List ConflictResolutionRec :=
  table.map (fun r => if r.id == rec.id then rec else r)

/-- Python truthiness of an optional integer (`None` and `0` are falsy),
as used by `if msg.session_agent_id` (src/conflict_resolution.py line 95). -/
def pyTruthyOptNat : Option Nat → Bool
  | none => false
  | some n => n != 0

/-- `json.dumps(related_messages, indent=2)` rendering (the `indent=2`
whitespace and string escaping are not reproduced). -/
def jsonDumpsRelated (related : List (Option Nat × String)) : String :=
  "[" ++ String.intercalate ", " (related.map (fun p =>
    "\x7b\"agent_id\": " ++ (match p.1 with | some n => toString n | none => "null") ++
    ", \"content\": \"" ++ p.2 ++ "\"\x7d")) ++ "]"

/-- `json.dumps(options, indent=2)` rendering (whitespace and escaping
not reproduced). -/
def jsonDumpsOptions (options : List String) : String :=
  "[" ++ String.intercalate ", " (options.map (fun o => "\"" ++ o ++ "\"")) ++ "]"

/-- The manager-decision prompt (src/conflict_resolution.py lines
101-116). -/
def managerDecisionPrompt (manager : AgentRec) (conflict_content : String)
    (related : List (Option Nat × String)) (options : List String) : String :=
  "You are " ++ manager.name ++ ", a " ++ manager.role ++
  " with the following personality: " ++ manager.personality ++ "\n\n" ++
  "You need to resolve a conflict between different agent responses.\n\n" ++
  "Original message: " ++ conflict_content ++ "\n\n" ++
  "Agent responses:\n" ++ jsonDumpsRelated related ++ "\n\n" ++
  "Options to choose from:\n" ++ jsonDumpsOptions options ++ "\n\n" ++
  "Please resolve this conflict by selecting the best option or providing a synthesis of the responses.\n" ++
  "Your decision should be clear and well-reasoned."

/-- `create_conflict_resolution` (src/conflict_resolution.py lines
13-186).  Returns the database after the call, the HTTP result, and the
number of Generation Oracle calls made.  The record is inserted and
committed before any method-specific processing, so it persists even on
the later error paths. -/
def create_conflict_resolution (oracle : Oracle) (db : DB) (current_user : Nat)
    (cr : ConflictResolutionCreate) : DB × Except HttpErr ConflictResolutionRec × Nat :=
  match db.sessions.find? (fun s => s.id == cr.session_id) with
  | none => (db, .error ⟨404, "Session not found"⟩, 0)
  | some session =>
    if !(session.owner_id == current_user) then
      (db, .error ⟨403, "Not authorized to access this session"⟩, 0)
    else
      match db.messages.find? (fun m => m.id == cr.conflict_message_id) with
      | none => (db, .error ⟨404, "Conflict message not found"⟩, 0)
      | some conflict_message =>
        let rec0 : ConflictResolutionRec :=
          ⟨db.next_id, cr.session_id, cr.conflict_message_id, cr.resolution_method,
            .client cr.resolution_data_options, cr.resolved_by_agent_id, none, db.now, none⟩
        let db1 : DB := { db with conflict_resolutions := db.conflict_resolutions ++ [rec0],
                                  next_id := db.next_id + 1 }
        if cr.resolution_method == "voting" then
          -- the source also queries the session agents here but never uses them
          let rec1 := { rec0 with resolution_data :=
            (ResolutionData.voting [] 0 cr.resolution_data_options "in_progress" none none) }
          ({ db1 with conflict_resolutions := updateCRTable db1.conflict_resolutions rec1 },
           .ok rec1, 0)
        else if cr.resolution_method == "manager_decision" then
          match db1.session_agents.find? (fun sa =>
              sa.session_id == cr.session_id && sa.is_manager) with
          | none => (db1, .error ⟨400, "No manager agent found in this session"⟩, 0)
          | some manager_agent =>
            match db1.agents.find? (fun a => a.id == manager_agent.agent_id) with
            | none =>
              -- `manager.name` on a missing Agent row raises AttributeError
              (db1, .error ⟨500, "AttributeError: NoneType has no attribute name"⟩, 0)
            | some manager =>
              let related := db1.messages.filter (fun m =>
                m.session_id == cr.session_id && m.parent_id == conflict_message.parent_id)
              let related_entries := (related.filter
                (fun m => pyTruthyOptNat m.session_agent_id)).map
                (fun m => (m.session_agent_id, m.content))
              let prompt := managerDecisionPrompt manager conflict_message.content
                related_entries cr.resolution_data_options
              match LangChainService.run_agent_workflow oracle manager.toData prompt with
              | .ok response =>
                let resolution_message : MessageRec :=
                  ⟨db1.next_id, response, cr.session_id, some manager_agent.id, none,
                    conflict_message.parent_id, some MessageType.CONFLICT_RESOLUTION, db1.now⟩
                let rec1 := { rec0 with
                  resolution_message_id := some resolution_message.id,
                  resolved_at := some db1.now,
                  resolution_data := .managerDecision response "resolved" }
                ({ db1 with
                    messages := db1.messages ++ [resolution_message],
                    next_id := db1.next_id + 1,
                    conflict_resolutions := updateCRTable db1.conflict_resolutions rec1 },
                 .ok rec1, 1)
              | .error e =>
                let rec1 := { rec0 with resolution_data := .managerError e "failed" }
                ({ db1 with conflict_resolutions := updateCRTable db1.conflict_resolutions rec1 },
                 .error ⟨500, "Error resolving conflict: " ++ e⟩, 1)
        else if cr.resolution_method == "consensus" then
          -- the source also queries the session agents here but never uses them
          let rec1 := { rec0 with resolution_data := ResolutionData.consensus [] 0 "in_progress" }
          ({ db1 with conflict_resolutions := updateCRTable db1.conflict_resolutions rec1 },
           .ok rec1, 0)
        else (db1, .ok rec0, 0)

/-- `vote_counts[v] = vote_counts.get(v, 0) + 1` on an insertion-ordered
dict. -/
def bumpCount (v : String) : List (String × Nat) → List (String × Nat)
  | [] => [(v, 1)]
  | (v', c) :: rest =>
    if v' == v then (v', c + 1) :: rest else (v', c) :: bumpCount v rest

/-- The tally loop over `voting_data["votes"].values()`
(src/conflict_resolution.py lines 249-251). -/
def voteCounts (votes : List (Nat × String)) : List (String × Nat) :=
  votes.foldl (fun acc p => bumpCount p.2 acc) []

/-- The winner scan (src/conflict_resolution.py lines 253-260): strict
`count > max_votes` starting from `(0, None)`, so the first option in
dict order keeps a tie. -/
def findWinner (counts : List (String × Nat)) : Nat × Option String :=
  counts.foldl (fun acc p => if p.2 > acc.1 then (p.2, some p.1) else acc) (0, none)

/-- `voting_data["votes"][str(agent_id)] = vote` on an insertion-ordered
dict keyed by the agent id. -/
def dictSetNat (k : Nat) (v : String) : List (Nat × String) → List (Nat × String)
  | [] => [(k, v)]
  | (k', v') :: rest =>
    if k' == k then (k', v) :: rest else (k', v') :: dictSetNat k v rest

/-- `submit_vote` (src/conflict_resolution.py lines 188-302).  The vote
map entry of the submitting agent is overwritten, `total_votes` is
incremented on every accepted submission, and the completion test
compares `total_votes` against the CURRENT `SessionAgent` count of the
session (re-queried on each submission). -/
def submit_vote (db : DB) (current_user : Nat) (conflict_resolution_id : Nat)
    (vote_data_agent_id : Option Nat) (vote_data_vote : Option String) :
    DB × Except HttpErr ConflictResolutionRec :=
  match db.conflict_resolutions.find? (fun r => r.id == conflict_resolution_id) with
  | none => (db, .error ⟨404, "Conflict resolution not found"⟩)
  | some dbcr =>
    match db.sessions.find? (fun s => s.id == dbcr.session_id) with
    | none =>
      -- `session.owner_id` on a missing Session row raises AttributeError
      (db, .error ⟨500, "AttributeError: NoneType has no attribute owner_id"⟩)
    | some session =>
      if !(session.owner_id == current_user) then
        (db, .error ⟨403, "Not authorized to access this conflict resolution"⟩)
      else if !(dbcr.resolution_method == "voting") then
        (db, .error ⟨400, "This conflict resolution does not use voting"⟩)
      else if !(dbcr.resolution_data.getStatus == some "in_progress") then
        (db, .error ⟨400, "Voting has already ended"⟩)
      else
        -- `if not agent_id or vote is None`: Python falsiness also rejects
        -- agent_id == 0
        match vote_data_agent_id with
        | none => (db, .error ⟨400, "Agent ID and vote are required"⟩)
        | some agent_id =>
          if agent_id == 0 then (db, .error ⟨400, "Agent ID and vote are required"⟩)
          else
            match vote_data_vote with
            | none => (db, .error ⟨400, "Agent ID and vote are required"⟩)
            | some vote =>
              match db.session_agents.find? (fun sa =>
                  sa.id == agent_id && sa.session_id == dbcr.session_id) with
              | none => (db, .error ⟨404, "Agent not found in this session"⟩)
              | some session_agent =>
                match dbcr.resolution_data with
                | .voting votes total_votes options _ result0 vote_counts0 =>
                  let votes1 := dictSetNat agent_id vote votes
                  let total1 := total_votes + 1
                  let session_agent_count := db.sessionAgentCount dbcr.session_id
                  if total1 ≥ session_agent_count then
                    let vote_counts := voteCounts votes1
                    let winning_option := (findWinner vote_counts).2
                    let voting1 := ResolutionData.voting votes1 total1 options
                      "completed" (some winning_option) (some vote_counts)
                    let conflict_message := db.messages.find? (fun m =>
                      m.id == dbcr.conflict_message_id)
                    let manager_agent :=
                      match db.session_agents.find? (fun sa =>
                          sa.session_id == dbcr.session_id && sa.is_manager) with
                      | some ma => ma
                      | none => session_agent
                    let resolution_message : MessageRec :=
                      ⟨db.next_id,
                        "Conflict resolved by voting. The winning option is: " ++
                          (match winning_option with | some w => w | none => "None"),
                        dbcr.session_id, some manager_agent.id, none,
                        (match conflict_message with | some m => m.parent_id | none => none),
                        some MessageType.CONFLICT_RESOLUTION, db.now⟩
                    let rec1 := { dbcr with
                      resolution_message_id := some resolution_message.id,
                      resolved_at := some db.now,
                      resolution_data := voting1 }
                    ({ db with
                        messages := db.messages ++ [resolution_message],
                        next_id := db.next_id + 1,
                        conflict_resolutions := updateCRTable db.conflict_resolutions rec1 },
                     .ok rec1)
                  else
                    let rec1 := { dbcr with resolution_data :=
                      (ResolutionData.voting votes1 total1 options "in_progress"
                        result0 vote_counts0) }
                    ({ db with conflict_resolutions :=
                        updateCRTable db.conflict_resolutions rec1 }, .ok rec1)
                | _ =>
                  -- `voting_data["votes"]` on a non-voting-shaped dict raises KeyError
                  (db, .error ⟨500, "KeyError: votes"⟩)

/-! ## WebSocket server (src/server.py) -/

/-- An `{"type": "error", "message": ...}` payload. -/
def errorPayload (msg : String) : Json :=
  Json.obj [("type", Json.str "error"), ("message", Json.str msg)]

/-- One entry of `agent_responses` (src/server.py lines 259-265; same
shape as the single-agent broadcast of lines 174-183).  `timestamp` holds
`created_at` (`isoformat()` is modelled as the decimal rendering of the
clock tick). -/
structure AgentResponseMsg where
  id : Nat
  content : String
  agent_name : String
  agent_role : String
  timestamp : Timestamp
deriving Repr, DecidableEq

/-- The broadcast dict of an agent response. -/
def AgentResponseMsg.toJson (r : AgentResponseMsg) : Json :=
  Json.obj [("id", Json.num r.id), ("content", Json.str r.content),
    ("agent_name", Json.str r.agent_name), ("agent_role", Json.str r.agent_role),
    ("timestamp", Json.str (toString r.timestamp))]

/-- The delegation loop of `WebSocketManager.process_user_message`
(src/server.py lines 229-265): one Oracle execution per assignment whose
`agent_id` matches an available agent, persisting each response under the
user message.  Returns the database (inserts before a raised exception
persist, since the source commits inside the loop) and either the
collected responses or the message of a raised exception.  Per the
source order, the Oracle call happens before `int(agent_id)` is
evaluated and before the SessionAgent lookup. -/
def processAssignments (oracle : Oracle) (session_id : Nat)
    (session_agents : List SessionAgentRec) (available_agents : List AgentData)
    (parent_msg_id : Nat) :
    List Json → DB → List AgentResponseMsg → DB × Except String (List AgentResponseMsg)
  | [], db, acc => (db, .ok acc)
  | assignment :: rest, db, acc =>
    match assignment with
    | Json.obj _ =>
      let agent_id := (assignment.getField "agent_id").getD Json.null
      let task := (assignment.getField "task").getD Json.null
      match available_agents.find? (fun a => toString a.id == agent_id.pyStr) with
      | none => processAssignments oracle session_id session_agents available_agents
          parent_msg_id rest db acc
      | some agent_data =>
        match LangChainService.run_agent_workflow oracle agent_data task.pyStr with
        | .error e => (db, .error e)
        | .ok response =>
          match agent_id.pyInt with
          | .error e => (db, .error e)
          | .ok aid =>
            match session_agents.find? (fun sa => Int.ofNat sa.agent_id == aid) with
            | none => processAssignments oracle session_id session_agents available_agents
                parent_msg_id rest db acc
            | some session_agent =>
              let agent_db_message : MessageRec :=
                ⟨db.next_id, response, session_id, some session_agent.id, none,
                  some parent_msg_id, none, db.now⟩
              let db1 : DB := { db with
                messages := db.messages ++ [agent_db_message],
                next_id := db.next_id + 1 }
              processAssignments oracle session_id session_agents available_agents
                parent_msg_id rest db1
                (acc ++ [⟨agent_db_message.id, response, agent_data.name, agent_data.role,
                  agent_db_message.created_at⟩])
    | _ => (db, .error "AttributeError: get on a non-dict assignment")

/-- Python iteration over an arbitrary JSON value (`for assignment in
...`): lists yield their elements, strings their characters, dicts their
keys; other values raise TypeError. -/
def pyIterate : Json → Except String (List Json)
  | .arr xs => .ok xs
  | .str s => .ok (s.data.map (fun c => Json.str (String.singleton c)))
  | .obj fields => .ok (fields.map (fun f => Json.str f.1))
  | _ => .error "TypeError: not iterable"

/-- The `available_agents` list of `WebSocketManager.process_user_message`
(src/server.py lines 185-197): the persona dict of every session agent
whose `Agent` row exists. -/
def availableAgents (db : DB) (session_agents : List SessionAgentRec) : List AgentData :=
  session_agents.filterMap (fun sa =>
    (db.agents.find? (fun a => a.id == sa.agent_id)).map AgentRec.toData)

/-- `WebSocketManager.process_user_message` (src/server.py lines 84-306).
Returns the database after the call and the deliveries performed, in
order.  The whole body is wrapped in try/except: a raised exception
becomes a targeted `error` delivery to the originating client (lines
297-306), while database commits made before the exception persist. -/
def WebSocketManager.process_user_message (oracle : Oracle) (jsonLoads : JsonLoads)
    (reg : Registry) (db : DB) (session_id : Nat) (client_id : String)
    (message : WireMessage) : DB × List Delivery :=
  let content := message.content.getD ""
  match db.sessions.find? (fun s => s.id == session_id) with
  | none =>
    (db, WebSocketManager.send_direct_message reg session_id client_id
      (errorPayload ("Session " ++ toString session_id ++ " not found")))
  | some db_session =>
    match db.session_agents.filter (fun sa => sa.session_id == session_id) with
    | [] =>
      (db, WebSocketManager.send_direct_message reg session_id client_id
        (errorPayload "No agents in this session"))
    | first_sa :: rest_sa =>
      let session_agents := first_sa :: rest_sa
      match session_agents.find? (fun sa => sa.is_manager) with
      | none =>
        -- no manager agent: answer with the first session agent directly
        match db.agents.find? (fun a => a.id == first_sa.agent_id) with
        | none =>
          (db, WebSocketManager.send_direct_message reg session_id client_id
            (errorPayload "Agent not found"))
        | some agent =>
          match LangChainService.run_agent_workflow oracle agent.toData content with
          | .error e =>
            (db, WebSocketManager.send_direct_message reg session_id client_id
              (errorPayload ("Error processing message: " ++ e)))
          | .ok response =>
            let db_message : MessageRec :=
              ⟨db.next_id, content, session_id, none, some db_session.owner_id,
                none, none, db.now⟩
            let db1 : DB := { db with
              messages := db.messages ++ [db_message],
              next_id := db.next_id + 1 }
            let agent_db_message : MessageRec :=
              ⟨db1.next_id, response, session_id, some first_sa.id, none,
                some db_message.id, none, db1.now⟩
            let db2 : DB := { db1 with
              messages := db1.messages ++ [agent_db_message],
              next_id := db1.next_id + 1 }
            (db2, WebSocketManager.broadcast_agent_message reg session_id
              (AgentResponseMsg.toJson ⟨agent_db_message.id, response, agent.name,
                agent.role, agent_db_message.created_at⟩))
      | some manager_agent =>
        let available_agents := availableAgents db session_agents
        match db.agents.find? (fun a => a.id == manager_agent.agent_id) with
        | none =>
          (db, WebSocketManager.send_direct_message reg session_id client_id
            (errorPayload "Manager agent not found"))
        | some manager =>
          let db_message : MessageRec :=
            ⟨db.next_id, content, session_id, none, some db_session.owner_id,
              none, none, db.now⟩
          let db1 : DB := { db with
            messages := db.messages ++ [db_message],
            next_id := db.next_id + 1 }
          match LangChainService.run_manager_workflow oracle jsonLoads content
              available_agents with
          | .error e =>
            (db1, WebSocketManager.send_direct_message reg session_id client_id
              (errorPayload ("Error processing message: " ++ e)))
          | .ok delegation_result =>
            -- delegation_result.get("assigned_agents", []) raises
            -- AttributeError when the parsed JSON is not a dict
            match delegation_result with
            | Json.obj _ =>
              let assigned := (delegation_result.getField "assigned_agents").getD (Json.arr [])
              match pyIterate assigned with
              | .error e =>
                (db1, WebSocketManager.send_direct_message reg session_id client_id
                  (errorPayload ("Error processing message: " ++ e)))
              | .ok assignments =>
                match processAssignments oracle session_id session_agents
                    available_agents db_message.id assignments db1 [] with
                | (db2, .error e) =>
                  (db2, WebSocketManager.send_direct_message reg session_id client_id
                    (errorPayload ("Error processing message: " ++ e)))
                | (db2, .ok agent_responses) =>
                  let responseBroadcasts := (agent_responses.map (fun r =>
                    WebSocketManager.broadcast_agent_message reg session_id r.toJson)).flatten
                  if agent_responses.length > 1 then
                    match (LangChainService.resolve_conflicts oracle jsonLoads
                        (agent_responses.map (fun r => ⟨some r.agent_name, some r.content⟩))).1 with
                    | .error e =>
                      (db2, WebSocketManager.send_direct_message reg session_id client_id
                        (errorPayload ("Error processing message: " ++ e)))
                    | .ok resolution_result =>
                      -- resolution_result.get("result", "No resolution") raises
                      -- AttributeError when the parsed JSON is not a dict
                      match resolution_result with
                      | Json.obj _ =>
                        let result_content :=
                          match resolution_result.getField "result" with
                          | some v => v.pyStr
                          | none => "No resolution"
                        let resolution_db_message : MessageRec :=
                          ⟨db2.next_id, result_content, session_id, some manager_agent.id,
                            none, some db_message.id, none, db2.now⟩
                        let db3 : DB := { db2 with
                          messages := db2.messages ++ [resolution_db_message],
                          next_id := db2.next_id + 1 }
                        (db3, WebSocketManager.broadcast_agent_message reg session_id
                          (Json.obj [("id", Json.num resolution_db_message.id),
                            ("content", Json.str result_content),
                            ("agent_name", Json.str manager.name),
                            ("agent_role", Json.str manager.role),
                            ("timestamp", Json.str (toString resolution_db_message.created_at))]) ++
                          responseBroadcasts)
                      | _ =>
                        (db2, WebSocketManager.send_direct_message reg session_id client_id
                          (errorPayload "Error processing message: AttributeError: get"))
                  else
                    (db2, responseBroadcasts)
            | _ =>
              (db1, WebSocketManager.send_direct_message reg session_id client_id
                (errorPayload "Error processing message: AttributeError: get"))

/-- One receive-loop step of `websocket_endpoint` (src/server.py lines
314-353): `user_message` spawns a `process_user_message` task,
`agent_added` broadcasts a notification, anything else sends a targeted
error envelope back to the originating connection. -/
inductive EndpointAction where
  | spawnProcess (session_id : Nat) (client_id : String) (message : WireMessage)
  | deliver (ds : List Delivery)
deriving Repr

/-- The dispatch of `websocket_endpoint` on one inbound envelope
(src/server.py lines 324-353); `data.get("type", "")` defaults a missing
type to the empty string. -/
def websocket_endpoint_step (reg : Registry) (session_id : Nat) (client_id : String)
    (data : WireMessage) : EndpointAction :=
  let message_type := data.type_field.getD ""
  if message_type == "user_message" then
    .spawnProcess session_id client_id data
  else if message_type == "agent_added" then
    .deliver (WebSocketManager.broadcast_notification reg session_id
      (Json.obj [("type", Json.str "agent_added"),
        ("agent_id", data.agent_id.getD Json.null),
        ("agent_name", Json.str (data.agent_name.getD "Unknown Agent"))]))
  else
    .deliver (WebSocketManager.send_direct_message reg session_id client_id
      (errorPayload ("Unknown message type: " ++ message_type)))

/-! ## Registry lemmas and claim C9 -/

/-- The Python-dict representation invariant: no duplicate session keys
and no duplicate client keys. -/
def Registry.Wf (reg : Registry) : Prop :=
  (reg.map (·.1)).Nodup ∧ ∀ e ∈ reg, (e.2.map (·.1)).Nodup

/-- Number of registry entries for a (session id, client id) pair. -/
def Registry.entryCount (reg : Registry) (sid : Nat) (cid : String) : Nat :=
  ((reg.filter (fun e => e.1 == sid)).map
    (fun e => (e.2.filter (fun p => p.1 == cid)).length)).sum

theorem dictSet_self_idem {α : Type} (k : String) (v : α) (l : List (String × α)) :
    dictSet k v (dictSet k v l) = dictSet k v l := by
  induction l with
  | nil => simp [dictSet]
  | cons p rest ih =>
    obtain ⟨k', v'⟩ := p
    cases h : k' == k with
    | true => simp [dictSet, h]
    | false => simp [dictSet, h, ih]

theorem registry_update_update (reg : Registry) (sid : Nat)
    (f g : List (String × WS) → List (String × WS)) :
    Registry.update (Registry.update reg sid f) sid g =
      Registry.update reg sid (fun l => g (f l)) := by
  induction reg with
  | nil => rfl
  | cons e rest ih =>
    obtain ⟨s, inner⟩ := e
    cases h : s == sid with
    | true => simp [Registry.update, h]
    | false => simp [Registry.update, h, ih]

theorem find_key_isSome_of_update (reg : Registry) (sid : Nat)
    (f : List (String × WS) → List (String × WS))
    (h : (reg.find? (fun e => e.1 == sid)).isSome) :
    ((Registry.update reg sid f).find? (fun e => e.1 == sid)).isSome := by
  induction reg with
  | nil => simp at h
  | cons e rest ih =>
    obtain ⟨s, inner⟩ := e
    cases hs : s == sid with
    | true => simp [Registry.update, hs, List.find?]
    | false =>
      simp only [List.find?, hs] at h
      simp [Registry.update, hs, List.find?, ih h]

theorem connect_find_key_isSome (reg : Registry) (ws : WS) (sid : Nat) (cid : String) :
    ((ConnectionManager.connect reg ws sid cid).find? (fun e => e.1 == sid)).isSome := by
  cases hfind : (reg.find? (fun e => e.1 == sid)).isSome with
  | true =>
    unfold ConnectionManager.connect
    rw [if_pos hfind]
    exact find_key_isSome_of_update reg sid _ hfind
  | false =>
    unfold ConnectionManager.connect
    rw [if_neg (by simp [hfind])]
    apply find_key_isSome_of_update
    have hnone : reg.find? (fun e => e.1 == sid) = none := by
      cases hf : reg.find? (fun e => e.1 == sid) with
      | none => rfl
      | some e => rw [hf] at hfind; simp at hfind
    rw [List.find?_append, hnone]
    simp [List.find?]

theorem update_dictSet_connect (reg : Registry) (ws : WS) (sid : Nat) (cid : String) :
    Registry.update (ConnectionManager.connect reg ws sid cid) sid (dictSet cid ws) =
      ConnectionManager.connect reg ws sid cid := by
  have h1 : ConnectionManager.connect reg ws sid cid =
      Registry.update (if (reg.find? (fun e => e.1 == sid)).isSome then reg
        else reg ++ [(sid, [])]) sid (dictSet cid ws) := rfl
  rw [h1, registry_update_update]
  congr 1
  funext l
  exact dictSet_self_idem cid ws l

theorem connect_idem (reg : Registry) (ws : WS) (sid : Nat) (cid : String) :
    ConnectionManager.connect (ConnectionManager.connect reg ws sid cid) ws sid cid =
      ConnectionManager.connect reg ws sid cid := by
  have hkey := connect_find_key_isSome reg ws sid cid
  have houter : ConnectionManager.connect (ConnectionManager.connect reg ws sid cid) ws sid cid =
      Registry.update
        (if ((ConnectionManager.connect reg ws sid cid).find? (fun e => e.1 == sid)).isSome
          then ConnectionManager.connect reg ws sid cid
          else ConnectionManager.connect reg ws sid cid ++ [(sid, [])]) sid
        (dictSet cid ws) := rfl
  rw [houter, if_pos hkey, update_dictSet_connect]

theorem filter_fst_eq_nil {κ α : Type} [BEq κ] [LawfulBEq κ] (k : κ) (l : List (κ × α))
    (h : k ∉ l.map (·.1)) : l.filter (fun p => p.1 == k) = [] := by
  rw [List.filter_eq_nil_iff]
  intro p hp
  simp only [beq_iff_eq]
  intro hpk
  exact h (hpk ▸ List.mem_map_of_mem (·.1) hp)

theorem dictSet_filter_len (cid : String) (ws : WS) (inner : List (String × WS))
    (h : (inner.map (·.1)).Nodup) :
    ((dictSet cid ws inner).filter (fun p => p.1 == cid)).length = 1 := by
  induction inner with
  | nil => simp [dictSet]
  | cons p rest ih =>
    obtain ⟨k, v⟩ := p
    rw [List.map_cons, List.nodup_cons] at h
    obtain ⟨hk, hrest⟩ := h
    cases hkc : k == cid with
    | true =>
      have hke : k = cid := eq_of_beq hkc
      subst hke
      simp only [dictSet, beq_self_eq_true, if_true, List.filter]
      rw [filter_fst_eq_nil k rest hk]
      simp
    | false =>
      simp [dictSet, hkc, List.filter, ih hrest]

theorem entryCount_update_dictSet (reg : Registry) (ws : WS) (sid : Nat) (cid : String)
    (hnd : (reg.map (·.1)).Nodup) (hinner : ∀ e ∈ reg, (e.2.map (·.1)).Nodup)
    (hmem : (reg.find? (fun e => e.1 == sid)).isSome) :
    Registry.entryCount (Registry.update reg sid (dictSet cid ws)) sid cid = 1 := by
  induction reg with
  | nil => simp at hmem
  | cons e rest ih =>
    obtain ⟨s, inner⟩ := e
    rw [List.map_cons, List.nodup_cons] at hnd
    obtain ⟨hs_notin, hnd_rest⟩ := hnd
    cases hs : s == sid with
    | true =>
      have hse : s = sid := eq_of_beq hs
      subst hse
      simp only [Registry.update, beq_self_eq_true, if_true]
      unfold Registry.entryCount
      simp only [List.filter, beq_self_eq_true]
      rw [filter_fst_eq_nil s rest hs_notin]
      simp only [List.map, List.sum_cons, List.filter_nil, List.map_nil, List.sum_nil]
      rw [dictSet_filter_len cid ws inner (hinner ⟨s, inner⟩ (List.mem_cons_self _ _))]
      omega
    | false =>
      simp only [List.find?, hs] at hmem
      have ih' := ih hnd_rest (fun e he => hinner e (List.mem_cons_of_mem _ he)) hmem
      simp only [Registry.update, hs, if_false]
      unfold Registry.entryCount at ih' ⊢
      simp only [List.filter, hs]
      exact ih'

theorem update_append_absent (reg : Registry) (sid : Nat) (inner : List (String × WS))
    (f : List (String × WS) → List (String × WS))
    (h : reg.find? (fun e => e.1 == sid) = none) :
    Registry.update (reg ++ [(sid, inner)]) sid f = reg ++ [(sid, f inner)] := by
  induction reg with
  | nil => simp [Registry.update]
  | cons e rest ih =>
    obtain ⟨s, i⟩ := e
    cases hs : s == sid with
    | true => simp [List.find?, hs] at h
    | false =>
      simp only [List.find?, hs] at h
      simp [Registry.update, hs, ih h]

theorem entryCount_append_single (reg : Registry) (sid : Nat) (cid : String) (ws : WS)
    (h : reg.find? (fun e => e.1 == sid) = none) :
    Registry.entryCount (reg ++ [(sid, [(cid, ws)])]) sid cid = 1 := by
  unfold Registry.entryCount
  rw [List.filter_append]
  have hnil : reg.filter (fun e => e.1 == sid) = [] := by
    rw [List.filter_eq_nil_iff]
    intro a ha
    exact List.find?_eq_none.mp h a ha
  rw [hnil]
  simp [List.filter]

theorem entryCount_connect (reg : Registry) (ws : WS) (sid : Nat) (cid : String)
    (hwf : Registry.Wf reg) :
    Registry.entryCount (ConnectionManager.connect reg ws sid cid) sid cid = 1 := by
  cases hfind : (reg.find? (fun e => e.1 == sid)).isSome with
  | true =>
    unfold ConnectionManager.connect
    rw [if_pos hfind]
    exact entryCount_update_dictSet reg ws sid cid hwf.1 hwf.2 hfind
  | false =>
    unfold ConnectionManager.connect
    rw [if_neg (by simp [hfind])]
    have hnone : reg.find? (fun e => e.1 == sid) = none := by
      cases hf : reg.find? (fun e => e.1 == sid) with
      | none => rfl
      | some e => rw [hf] at hfind; simp at hfind
    rw [update_append_absent _ _ _ _ hnone]
    have : dictSet cid ws ([] : List (String × WS)) = [(cid, ws)] := rfl
    rw [this]
    exact entryCount_append_single reg sid cid ws hnone

/-- C9: registering a connection is idempotent on registry contents —
registering the identical (session id, client id) pair twice leaves the
registry equal to the state after a single registration, with exactly one
entry for the pair; the registry mutation of `WebSocketManager.connect`
(src/server.py) is the same operation as `ConnectionManager.connect`
(src/connection.py). -/
theorem register_connection_idempotent (reg : Registry) (ws : WS) (sid : Nat)
    (cid : String) (hwf : Registry.Wf reg) :
    ConnectionManager.connect (ConnectionManager.connect reg ws sid cid) ws sid cid =
      ConnectionManager.connect reg ws sid cid ∧
    Registry.entryCount (ConnectionManager.connect reg ws sid cid) sid cid = 1 ∧
    (WebSocketManager.connect reg ws sid cid).1 =
      ConnectionManager.connect reg ws sid cid :=
  ⟨connect_idem reg ws sid cid, entryCount_connect reg ws sid cid hwf, rfl⟩

/-- C9 witness: the theorem applied at the empty registry. -/
theorem register_connection_idempotent_witness :
    ConnectionManager.connect (ConnectionManager.connect [] 0 1 "c") 0 1 "c" =
      ConnectionManager.connect [] 0 1 "c" ∧
    Registry.entryCount (ConnectionManager.connect [] 0 1 "c") 1 "c" = 1 ∧
    (WebSocketManager.connect [] 0 1 "c").1 = ConnectionManager.connect [] 0 1 "c" :=
  register_connection_idempotent [] 0 1 "c" ⟨List.nodup_nil, by intro e he; cases he⟩

/-! ## Voting claims C1 and C2 -/

/-- `total_votes` of a voting blob. -/
def ResolutionData.getTotalVotes : ResolutionData → Option Nat
  | .voting _ tv _ _ _ _ => some tv
  | _ => none

/-- The `votes` dict of a voting blob. -/
def ResolutionData.getVotes : ResolutionData → Option (List (Nat × String))
  | .voting votes _ _ _ _ _ => some votes
  | _ => none

/-- A concrete Oracle for closed evaluations (never consulted on the
paths exercised). -/
def exOracle : Oracle := fun _ => .ok "ignored"

/-- Two-agent session (SessionAgent ids 50 and 51) with a voting
resolution (id 100) in progress. -/
def voteDoubleDB : DB :=
  ⟨[⟨10, "A1", "r", "p", "si", Json.null, 1⟩, ⟨11, "A2", "r", "p", "si", Json.null, 1⟩],
   [⟨1, "s", "", 1, true⟩],
   [⟨50, 1, 10, false⟩, ⟨51, 1, 11, false⟩],
   [⟨5, "conflict", 1, none, some 1, none, none, 0⟩],
   [⟨100, 1, 5, "voting", .voting [] 0 ["opt1", "opt2"] "in_progress" none none,
     none, none, 0, none⟩],
   200, 7⟩

/-- C1: evaluation of `submit_vote` at the failing input.  In the
two-agent session, agent 50 votes "opt1" and then re-votes "opt2" while
agent 51 has not voted.  The re-vote overwrites the vote-map entry
(`votes = [(50, "opt2")]`, one distinct voter), but `total_votes` counts
submissions (2), and the completion test compares `total_votes` — not
the distinct-voter count — against the session agent count (2), so the
completion/winner computation IS triggered: status becomes "completed"
with winner "opt2" after a single distinct voter. -/
theorem double_vote_triggers_completion :
    (Except.map (fun r => r.resolution_data.getStatus)
        (submit_vote voteDoubleDB 1 100 (some 50) (some "opt1")).2 =
      .ok (some "in_progress")) ∧
    (Except.map (fun r => r.resolution_data)
        (submit_vote (submit_vote voteDoubleDB 1 100 (some 50) (some "opt1")).1
          1 100 (some 50) (some "opt2")).2 =
      .ok (.voting [(50, "opt2")] 2 ["opt1", "opt2"] "completed"
        (some (some "opt2")) (some [("opt2", 1)]))) ∧
    voteDoubleDB.sessionAgentCount 1 = 2 :=
  ⟨rfl, rfl, rfl⟩

/-- Session with ONE agent (SessionAgent id 50) at resolution-creation
time; a second agent (id 11, owned by user 1) exists to be added later. -/
def growingSessionDB : DB :=
  ⟨[⟨10, "A1", "r", "p", "si", Json.null, 1⟩, ⟨11, "A2", "r", "p", "si", Json.null, 1⟩],
   [⟨1, "s", "", 1, true⟩],
   [⟨50, 1, 10, false⟩],
   [⟨5, "conflict", 1, none, some 1, none, none, 0⟩],
   [], 100, 0⟩

/-- C2 counterexample: a voting resolution (id 100) is created while the
session has exactly one SessionAgent; a second agent is then added; a
vote by the sole original agent (unique voters = 1 = creation-time
count) leaves the resolution "in_progress" — completion is decided by
the CURRENT SessionAgent count (2), not the count at creation. -/
theorem vote_denominator_counterexample :
    growingSessionDB.sessionAgentCount 1 = 1 ∧
    (let st1 := create_conflict_resolution exOracle growingSessionDB 1
        ⟨1, 5, "voting", ["opt1", "opt2"], none⟩
     let st2 := Sandbox.add_agent_to_session st1.1 1 1 11 false
     st2.1.sessionAgentCount 1 = 2 ∧
     Except.map (fun r => r.resolution_data.getStatus)
        (submit_vote st2.1 1 100 (some 50) (some "opt1")).2 =
      .ok (some "in_progress")) :=
  ⟨rfl, rfl, rfl⟩

/-- C2 (amended): the denominator of the voting completion test is the
SessionAgent count re-read from the database at each vote submission —
an accepted vote sets the status to "completed" exactly when the
incremented `total_votes` reaches the count at submission time, so
adding or removing session agents after creation changes when voting
completes. -/
theorem submit_vote_uses_current_agent_count
    (db : DB) (u crid aid : Nat) (v : String)
    (dbcr : ConflictResolutionRec) (session : SessionRec) (sa : SessionAgentRec)
    (votes : List (Nat × String)) (tv : Nat) (opts : List String)
    (res0 : Option (Option String)) (vc0 : Option (List (String × Nat)))
    (hfind : db.conflict_resolutions.find? (fun r => r.id == crid) = some dbcr)
    (hs : db.sessions.find? (fun s => s.id == dbcr.session_id) = some session)
    (how : session.owner_id = u)
    (hmeth : dbcr.resolution_method = "voting")
    (hdata : dbcr.resolution_data = .voting votes tv opts "in_progress" res0 vc0)
    (haid : aid ≠ 0)
    (hsa : db.session_agents.find? (fun x =>
      x.id == aid && x.session_id == dbcr.session_id) = some sa) :
    Except.map (fun r => r.resolution_data.getStatus)
        (submit_vote db u crid (some aid) (some v)).2 =
      .ok (some (if tv + 1 ≥ db.sessionAgentCount dbcr.session_id
        then "completed" else "in_progress")) ∧
    Except.map (fun r => ResolutionData.getTotalVotes r.resolution_data)
        (submit_vote db u crid (some aid) (some v)).2 = .ok (some (tv + 1)) := by
  have h4 : (aid == 0) = false := by simp [haid]
  unfold submit_vote
  by_cases hc : tv + 1 ≥ db.sessionAgentCount dbcr.session_id <;>
    simp [hfind, hs, hsa, hdata, how, hmeth, h4, hc, ResolutionData.getStatus,
      ResolutionData.getTotalVotes, Except.map]

/-- C2 witness: the amended theorem applied to a concrete in-progress
voting resolution with one prior vote and two current session agents. -/
theorem submit_vote_uses_current_agent_count_witness :
    Except.map (fun r => r.resolution_data.getStatus)
        (submit_vote voteDoubleDB 1 100 (some 51) (some "opt1")).2 =
      .ok (some (if 0 + 1 ≥ voteDoubleDB.sessionAgentCount 1
        then "completed" else "in_progress")) ∧
    Except.map (fun r => ResolutionData.getTotalVotes r.resolution_data)
        (submit_vote voteDoubleDB 1 100 (some 51) (some "opt1")).2 = .ok (some (0 + 1)) :=
  submit_vote_uses_current_agent_count voteDoubleDB 1 100 51 "opt1"
    ⟨100, 1, 5, "voting", .voting [] 0 ["opt1", "opt2"] "in_progress" none none,
      none, none, 0, none⟩
    ⟨1, "s", "", 1, true⟩ ⟨51, 1, 11, false⟩ [] 0 ["opt1", "opt2"] none none
    rfl rfl rfl rfl rfl (by decide) rfl

/-! ## Claim C3: manager-decision without a manager -/

/-- Session 1 (owner 1) with one NON-manager SessionAgent and a conflict
message; no manager agent exists. -/
def noManagerDB : DB :=
  ⟨[⟨10, "A1", "r", "p", "si", Json.null, 1⟩],
   [⟨1, "s", "", 1, true⟩],
   [⟨50, 1, 10, false⟩],
   [⟨5, "conflict", 1, none, some 1, none, none, 0⟩],
   [], 100, 3⟩

/-- C3 counterexample: creating a manager-decision Resolution in a session
without a manager RAISES an HTTP 400 error instead of returning a failed
record: the call result is an error, the Oracle call count is 0, and the
record (inserted before the check) keeps the client-provided blob — its
status is not "failed". -/
theorem manager_decision_counterexample :
    (create_conflict_resolution exOracle noManagerDB 1
        ⟨1, 5, "manager_decision", ["optA"], none⟩).2.1 =
      .error ⟨400, "No manager agent found in this session"⟩ ∧
    (create_conflict_resolution exOracle noManagerDB 1
        ⟨1, 5, "manager_decision", ["optA"], none⟩).2.2 = 0 ∧
    ((create_conflict_resolution exOracle noManagerDB 1
        ⟨1, 5, "manager_decision", ["optA"], none⟩).1.conflict_resolutions.map
      (fun r => r.resolution_data.getStatus)) = [none] :=
  ⟨rfl, rfl, rfl⟩

/-- C3 (amended): creating a manager-decision Resolution for a session
with no manager SessionAgent makes zero Oracle calls and raises an HTTP
400 "No manager agent found in this session" error; the Resolution
record — committed before the manager check — remains stored with the
client-provided resolution_data, NOT in a failed status. -/
theorem manager_decision_no_manager_rejected (oracle : Oracle) (db : DB) (u : Nat)
    (cr : ConflictResolutionCreate) (session : SessionRec) (msg : MessageRec)
    (hmeth : cr.resolution_method = "manager_decision")
    (hs : db.sessions.find? (fun s => s.id == cr.session_id) = some session)
    (how : session.owner_id = u)
    (hmsg : db.messages.find? (fun m => m.id == cr.conflict_message_id) = some msg)
    (hnomgr : db.session_agents.find? (fun sa =>
      sa.session_id == cr.session_id && sa.is_manager) = none) :
    create_conflict_resolution oracle db u cr =
      ({ db with
          conflict_resolutions := db.conflict_resolutions ++
            [⟨db.next_id, cr.session_id, cr.conflict_message_id, cr.resolution_method,
              .client cr.resolution_data_options, cr.resolved_by_agent_id, none,
              db.now, none⟩],
          next_id := db.next_id + 1 },
       .error ⟨400, "No manager agent found in this session"⟩, 0) := by
  unfold create_conflict_resolution
  simp [hs, how, hmsg, hmeth, hnomgr]

/-- C3 witness: the amended theorem applied at the concrete session. -/
theorem manager_decision_no_manager_rejected_witness :
    create_conflict_resolution exOracle noManagerDB 1
        ⟨1, 5, "manager_decision", ["optA"], none⟩ =
      ({ noManagerDB with
          conflict_resolutions := noManagerDB.conflict_resolutions ++
            [⟨noManagerDB.next_id, 1, 5, "manager_decision", .client ["optA"], none,
              none, noManagerDB.now, none⟩],
          next_id := noManagerDB.next_id + 1 },
       .error ⟨400, "No manager agent found in this session"⟩, 0) :=
  manager_decision_no_manager_rejected exOracle noManagerDB 1
    ⟨1, 5, "manager_decision", ["optA"], none⟩ ⟨1, "s", "", 1, true⟩
    ⟨5, "conflict", 1, none, some 1, none, none, 0⟩ rfl rfl rfl rfl rfl

/-! ## Claim C5: cross-session parents -/

/-- Two sessions of user 1; message 7 lives in session 2. -/
def crossParentDB : DB :=
  ⟨[], [⟨1, "s1", "", 1, true⟩, ⟨2, "s2", "", 1, true⟩], [],
   [⟨7, "parent", 2, none, some 1, none, none, 0⟩], [], 8, 1⟩

/-- C5 counterexample: appending a message in session 1 whose parent
(message 7) belongs to session 2 is ACCEPTED and stored — no
CrossSessionParent rejection exists — producing a stored message whose
parent lives in a different session. -/
theorem cross_session_parent_counterexample :
    (Sandbox.send_message crossParentDB 1 1 ⟨"hi", 1, none, none, some 7⟩).2 =
      .ok ⟨8, "hi", 1, none, some 1, some 7, none, 1⟩ ∧
    (Sandbox.send_message crossParentDB 1 1 ⟨"hi", 1, none, none, some 7⟩).1.messages =
      [⟨7, "parent", 2, none, some 1, none, none, 0⟩,
       ⟨8, "hi", 1, none, some 1, some 7, none, 1⟩] ∧
    ((crossParentDB.messages.find? (fun m => m.id == 7)).map (·.session_id) = some 2) :=
  ⟨rfl, rfl, rfl⟩

/-- C5 (amended): `send_message` performs no validation of the parent at
all — whenever the session exists and belongs to the caller, the message
is stored with the client-supplied parent_id as-is (even when that
parent belongs to a different session, or does not exist). -/
theorem send_message_stores_any_parent (db : DB) (u sid : Nat) (msg : MessageCreate)
    (session : SessionRec)
    (hs : db.sessions.find? (fun s => s.id == sid && s.owner_id == u) = some session) :
    Sandbox.send_message db u sid msg =
      ({ db with
          messages := db.messages ++
            [⟨db.next_id, msg.content, sid, none, some u, msg.parent_id, none, db.now⟩],
          next_id := db.next_id + 1 },
       .ok ⟨db.next_id, msg.content, sid, none, some u, msg.parent_id, none, db.now⟩) := by
  unfold Sandbox.send_message
  simp [hs]

/-- C5 witness: the amended theorem applied at the cross-session parent. -/
theorem send_message_stores_any_parent_witness :
    Sandbox.send_message crossParentDB 1 1 ⟨"hi", 1, none, none, some 7⟩ =
      ({ crossParentDB with
          messages := crossParentDB.messages ++
            [⟨crossParentDB.next_id, "hi", 1, none, some 1, some 7, none,
              crossParentDB.now⟩],
          next_id := crossParentDB.next_id + 1 },
       .ok ⟨crossParentDB.next_id, "hi", 1, none, some 1, some 7, none,
         crossParentDB.now⟩) :=
  send_message_stores_any_parent crossParentDB 1 1 ⟨"hi", 1, none, none, some 7⟩
    ⟨1, "s1", "", 1, true⟩ rfl

/-! ## Claim C6: at most one manager per session -/

theorem add_agent_preserves_at_most_one_manager (db : DB) (u sid aid : Nat) (m : Bool)
    (hinv : db.atMostOneManager) :
    ((Sandbox.add_agent_to_session db u sid aid m).1).atMostOneManager := by
  unfold Sandbox.add_agent_to_session
  cases hfs : db.sessions.find? (fun s => s.id == sid && s.owner_id == u) with
  | none => exact hinv
  | some s =>
    cases hfa : db.agents.find? (fun a => a.id == aid && a.owner_id == u) with
    | none => exact hinv
    | some a =>
      by_cases hdup : (db.session_agents.find? (fun sa =>
          sa.session_id == sid && sa.agent_id == aid)).isSome
      · simp only [hdup, if_true]
        exact hinv
      · simp only [hdup, if_false]
        by_cases hguard : (m && (db.session_agents.find? (fun sa =>
            sa.session_id == sid && sa.is_manager)).isSome) = true
        · simp only [hguard, if_true]
          exact hinv
        · simp only [hguard, if_false]
          intro sid'
          show ((db.session_agents ++ [(⟨db.next_id, sid, aid, m⟩ : SessionAgentRec)]).filter
            (fun sa => sa.session_id == sid' && sa.is_manager)).length ≤ 1
          simp only [List.filter_append, List.length_append]
          by_cases hm : m = true
          · subst hm
            simp only [Bool.true_and] at hguard
            have hnone : db.session_agents.find? (fun sa =>
                sa.session_id == sid && sa.is_manager) = none := by
              cases hf : db.session_agents.find? (fun sa =>
                  sa.session_id == sid && sa.is_manager) with
              | none => rfl
              | some x => rw [hf] at hguard; simp at hguard
            by_cases hsid : sid = sid'
            · subst hsid
              have hfil : db.session_agents.filter (fun sa =>
                  sa.session_id == sid && sa.is_manager) = [] := by
                rw [List.filter_eq_nil_iff]
                intro x hx
                simpa using List.find?_eq_none.mp hnone x hx
              have := hinv sid
              unfold DB.managerCount at this
              rw [hfil]
              simp [List.filter]
            · have hne : ((⟨db.next_id, sid, aid, true⟩ : SessionAgentRec).session_id
                  == sid') = false := by simp [hsid]
              have := hinv sid'
              unfold DB.managerCount at this
              simp only [List.filter, hne, Bool.false_and]
              simpa using this
          · have hmf : m = false := by
              cases m with
              | true => exact absurd rfl hm
              | false => rfl
            subst hmf
            have := hinv sid'
            unfold DB.managerCount at this
            simp only [List.filter, Bool.and_false]
            simpa using this

/-- Session 1 (owner 1) that already has a manager SessionAgent (id 50,
persona 10); persona 11 exists to be added. -/
def managerSessionDB : DB :=
  ⟨[⟨10, "M", "mgr", "p", "si", Json.null, 1⟩, ⟨11, "A2", "r", "p", "si", Json.null, 1⟩],
   [⟨1, "s", "", 1, true⟩],
   [⟨50, 1, 10, true⟩],
   [], [], 60, 0⟩

/-- C6: adding an agent with is_manager = true to a session that already
has a manager is rejected with the HTTP 400 duplicate-manager error and
leaves the database (hence the membership) unchanged; and every add
operation — accepted or rejected — preserves the at-most-one-manager
invariant. -/
theorem add_manager_agent_invariant (db : DB) (u sid aid : Nat)
    (session : SessionRec) (agent : AgentRec) (mgr : SessionAgentRec)
    (hs : db.sessions.find? (fun s => s.id == sid && s.owner_id == u) = some session)
    (ha : db.agents.find? (fun a => a.id == aid && a.owner_id == u) = some agent)
    (hnodup : db.session_agents.find? (fun sa =>
      sa.session_id == sid && sa.agent_id == aid) = none)
    (hmgr : db.session_agents.find? (fun sa =>
      sa.session_id == sid && sa.is_manager) = some mgr) :
    Sandbox.add_agent_to_session db u sid aid true =
      (db, .error ⟨400, "Session already has a manager agent"⟩) ∧
    (∀ (db' : DB) (u' sid' aid' : Nat) (m' : Bool), db'.atMostOneManager →
      ((Sandbox.add_agent_to_session db' u' sid' aid' m').1).atMostOneManager) := by
  constructor
  · unfold Sandbox.add_agent_to_session
    simp [hs, ha, hnodup, hmgr]
  · intro db' u' sid' aid' m' hinv
    exact add_agent_preserves_at_most_one_manager db' u' sid' aid' m' hinv

/-- C6 witness: the theorem applied at a session that already has a
manager. -/
theorem add_manager_agent_invariant_witness :
    Sandbox.add_agent_to_session managerSessionDB 1 1 11 true =
      (managerSessionDB, .error ⟨400, "Session already has a manager agent"⟩) ∧
    (∀ (db' : DB) (u' sid' aid' : Nat) (m' : Bool), db'.atMostOneManager →
      ((Sandbox.add_agent_to_session db' u' sid' aid' m').1).atMostOneManager) :=
  add_manager_agent_invariant managerSessionDB 1 1 11 ⟨1, "s", "", 1, true⟩
    ⟨11, "A2", "r", "p", "si", Json.null, 1⟩ ⟨50, 1, 10, true⟩ rfl rfl rfl rfl

/-! ## Claim C7: delegation never raises on malformed Oracle output -/

/-- C7: whenever the Oracle reply to the delegation prompt fails JSON
parsing, both delegation entry points — `run_manager_workflow`
(src/gemini_service.py) and `ManagerAgent.process_message`
(src/manager_agent.py) — return the fixed parse-failure plan (tagged
"Failed to parse response", with an EMPTY assignment list) rather than
propagating an exception or a partial plan. -/
theorem delegation_parse_failure_returns_empty_plan
    (oracle : Oracle) (jsonLoads : JsonLoads) (user_message : String)
    (available_agents : List AgentData) (resp1 resp2 : String)
    (h1 : GeminiService.generate_response oracle user_message
      (some (managerWorkflowInstructions available_agents)) = .ok resp1)
    (hp1 : jsonLoads resp1 = none)
    (h2 : oracle (managerAgentRendered user_message available_agents) = .ok resp2)
    (hp2 : jsonLoads resp2 = none) :
    LangChainService.run_manager_workflow oracle jsonLoads user_message
      available_agents = .ok parseFailurePlan ∧
    ManagerAgent.process_message oracle jsonLoads user_message
      available_agents = .ok parseFailurePlan ∧
    parseFailurePlan.getField "assigned_agents" = some (Json.arr []) ∧
    parseFailurePlan.getField "thought" = some (Json.str "Failed to parse response") := by
  refine ⟨?_, ?_, rfl, rfl⟩
  · simp [LangChainService.run_manager_workflow, h1, hp1]
  · simp [ManagerAgent.process_message, h2, hp2]

/-- C7 witness: both entry points at a constant unparseable Oracle. -/
theorem delegation_parse_failure_returns_empty_plan_witness :
    LangChainService.run_manager_workflow (fun _ => .ok "not json") (fun _ => none)
      "hi" [] = .ok parseFailurePlan ∧
    ManagerAgent.process_message (fun _ => .ok "not json") (fun _ => none)
      "hi" [] = .ok parseFailurePlan ∧
    parseFailurePlan.getField "assigned_agents" = some (Json.arr []) ∧
    parseFailurePlan.getField "thought" = some (Json.str "Failed to parse response") :=
  delegation_parse_failure_returns_empty_plan (fun _ => .ok "not json") (fun _ => none)
    "hi" [] "not json" "not json" rfl rfl rfl rfl

/-! ## Claim C10: conflict synthesis degrades, never raises -/

/-- C10: `LangChainService.resolve_conflicts` is total at its interface —
an empty response list returns the fixed "No responses to resolve"
result with ZERO Oracle calls, and when the Oracle synthesis output is
not valid JSON it returns the first response content (one Oracle call)
instead of raising. -/
theorem resolve_conflicts_degrades
    (oracle : Oracle) (jsonLoads : JsonLoads) (responses : List RespDict)
    (first : RespDict) (rest : List RespDict) (resp : String)
    (hne : responses = first :: rest)
    (ho : GeminiService.generate_response oracle
      "Resolve the conflicts between these agent responses."
      (some (resolveConflictsInstructions responses)) = .ok resp)
    (hp : jsonLoads resp = none) :
    LangChainService.resolve_conflicts oracle jsonLoads [] =
      (.ok (Json.obj [("result", Json.str "No responses to resolve")]), 0) ∧
    LangChainService.resolve_conflicts oracle jsonLoads responses =
      (.ok (Json.obj [("thought", Json.str "Failed to parse response"),
        ("result", Json.str (first.content.getD "No valid response"))]), 1) := by
  subst hne
  refine ⟨rfl, ?_⟩
  simp [LangChainService.resolve_conflicts, ho, hp]

/-- C10 witness: one response with an unparseable synthesis output; the
result is that response content. -/
theorem resolve_conflicts_degrades_witness :
    LangChainService.resolve_conflicts (fun _ => .ok "bad") (fun _ => none) [] =
      (.ok (Json.obj [("result", Json.str "No responses to resolve")]), 0) ∧
    LangChainService.resolve_conflicts (fun _ => .ok "bad") (fun _ => none)
      [⟨some "A", some "alpha"⟩] =
      (.ok (Json.obj [("thought", Json.str "Failed to parse response"),
        ("result", Json.str ((some "alpha").getD "No valid response"))]), 1) :=
  resolve_conflicts_degrades (fun _ => .ok "bad") (fun _ => none)
    [⟨some "A", some "alpha"⟩] ⟨some "A", some "alpha"⟩ [] "bad" rfl rfl rfl

/-! ## Claim C8: unknown wire type is a targeted error -/

theorem send_direct_targets (reg : Registry) (sid : Nat) (cid : String) (payload : Json) :
    ∀ d ∈ WebSocketManager.send_direct_message reg sid cid payload,
      d.session_id = sid ∧ d.client_id = cid := by
  intro d hd
  unfold WebSocketManager.send_direct_message at hd
  cases hl : Registry.lookup reg sid with
  | none => rw [hl] at hd; cases hd
  | some inner =>
    rw [hl] at hd
    by_cases hf : (inner.find? (fun e => e.1 == cid)).isSome
    · simp [hf] at hd
      subst hd
      exact ⟨rfl, rfl⟩
    · simp [hf] at hd

theorem send_message_targets (reg : Registry) (payload : Json) (sid : Nat) (cid : String) :
    ∀ d ∈ ConnectionManager.send_message reg payload sid (some cid),
      d.session_id = sid ∧ d.client_id = cid := by
  intro d hd
  unfold ConnectionManager.send_message at hd
  cases hl : Registry.lookup reg sid with
  | none => rw [hl] at hd; cases hd
  | some inner =>
    rw [hl] at hd
    by_cases hf : (inner.find? (fun e => e.1 == cid)).isSome
    · simp [hf] at hd
      subst hd
      exact ⟨rfl, rfl⟩
    · simp [hf] at hd

/-- C8: an inbound envelope whose type is neither "user_message" nor
"agent_added" yields, in both the server endpoint (src/server.py) and
the WebSocket service (src/connection.py), exactly a targeted delivery
of the `error` envelope naming the unknown type — sent only towards the
originating (session, client) connection, never broadcast: every
delivery it can produce is addressed to the originating client. -/
theorem unknown_type_error_targeted
    (reg : Registry) (sid : Nat) (cid : String) (data : WireMessage) (t : String)
    (ht : data.type_field = some t)
    (h1 : t ≠ "user_message") (h2 : t ≠ "agent_added") :
    websocket_endpoint_step reg sid cid data =
      .deliver (WebSocketManager.send_direct_message reg sid cid
        (errorPayload ("Unknown message type: " ++ t))) ∧
    WebSocketService.handle_message reg data sid cid =
      ConnectionManager.send_message reg
        (errorPayload ("Unknown message type: " ++ t)) sid (some cid) ∧
    (∀ d ∈ WebSocketManager.send_direct_message reg sid cid
        (errorPayload ("Unknown message type: " ++ t)),
      d.session_id = sid ∧ d.client_id = cid) ∧
    (∀ d ∈ ConnectionManager.send_message reg
        (errorPayload ("Unknown message type: " ++ t)) sid (some cid),
      d.session_id = sid ∧ d.client_id = cid) := by
  refine ⟨?_, ?_, send_direct_targets reg sid cid _, send_message_targets reg _ sid cid⟩
  · simp [websocket_endpoint_step, ht, h1, h2]
  · simp [WebSocketService.handle_message, ht, h1, h2, errorPayload]

/-- C8 witness: a "bogus"-typed envelope on a two-client session. -/
theorem unknown_type_error_targeted_witness :
    websocket_endpoint_step [(1, [("c1", 0), ("c2", 1)])] 1 "c1" ⟨some "bogus", none, none, none⟩ =
      .deliver (WebSocketManager.send_direct_message [(1, [("c1", 0), ("c2", 1)])] 1 "c1"
        (errorPayload ("Unknown message type: " ++ "bogus"))) ∧
    WebSocketService.handle_message [(1, [("c1", 0), ("c2", 1)])]
        ⟨some "bogus", none, none, none⟩ 1 "c1" =
      ConnectionManager.send_message [(1, [("c1", 0), ("c2", 1)])]
        (errorPayload ("Unknown message type: " ++ "bogus")) 1 (some "c1") ∧
    (∀ d ∈ WebSocketManager.send_direct_message [(1, [("c1", 0), ("c2", 1)])] 1 "c1"
        (errorPayload ("Unknown message type: " ++ "bogus")),
      d.session_id = 1 ∧ d.client_id = "c1") ∧
    (∀ d ∈ ConnectionManager.send_message [(1, [("c1", 0), ("c2", 1)])]
        (errorPayload ("Unknown message type: " ++ "bogus")) 1 (some "c1"),
      d.session_id = 1 ∧ d.client_id = "c1") :=
  unknown_type_error_targeted [(1, [("c1", 0), ("c2", 1)])] 1 "c1"
    ⟨some "bogus", none, none, none⟩ "bogus" rfl (by decide) (by decide)

/-! ## Claim C4: empty delegation plan -/

/-- Session 1 with a manager SessionAgent (id 50, persona 10) and a
worker (id 51, persona 11). -/
def managerPlanDB : DB :=
  ⟨[⟨10, "M", "mgr", "p", "si", Json.null, 1⟩, ⟨11, "A2", "r", "p", "si", Json.null, 1⟩],
   [⟨1, "s", "", 1, true⟩],
   [⟨50, 1, 10, true⟩, ⟨51, 1, 11, false⟩],
   [], [], 300, 9⟩

/-- The same session without any manager SessionAgent. -/
def noMgrPlanDB : DB :=
  ⟨[⟨10, "M", "mgr", "p", "si", Json.null, 1⟩, ⟨11, "A2", "r", "p", "si", Json.null, 1⟩],
   [⟨1, "s", "", 1, true⟩],
   [⟨50, 1, 10, false⟩, ⟨51, 1, 11, false⟩],
   [], [], 300, 9⟩

/-- A registry with two live clients in session 1. -/
def exReg : Registry := [(1, [("c1", 0), ("c2", 1)])]

/-- C4 counterexample: with a manager present and a delegation plan that
is empty after a parse failure, `process_user_message` produces ZERO
agent responses — no delivery at all (despite two live connections) and
no stored agent message (only the user message) — instead of degrading
to single-agent execution. -/
theorem empty_plan_no_response_counterexample :
    (WebSocketManager.process_user_message (fun _ => .ok "not json") (fun _ => none)
        exReg managerPlanDB 1 "c1" ⟨none, some "hello", none, none⟩).2 = [] ∧
    (WebSocketManager.process_user_message (fun _ => .ok "not json") (fun _ => none)
        exReg managerPlanDB 1 "c1" ⟨none, some "hello", none, none⟩).1.messages =
      [⟨300, "hello", 1, none, some 1, none, none, 9⟩] ∧
    ((managerPlanDB.session_agents.find? (fun sa => sa.is_manager)).isSome = true) :=
  ⟨rfl, rfl, rfl⟩

/-- C4 (amended): single-agent degradation exists only for sessions
WITHOUT a manager agent — there the raw user text is executed against
the first roster entry and exactly one agent response is stored and
broadcast, regardless of any plan.  When a manager IS present and the
delegation plan is empty (e.g. after a parse failure), no fallback
occurs: zero agent responses are produced and nothing is delivered. -/
theorem single_agent_fallback_only_without_manager :
    (∀ (oracle : Oracle) (jsonLoads : JsonLoads) (reg : Registry) (db : DB)
        (sid : Nat) (cid : String) (message : WireMessage) (content : String)
        (session : SessionRec) (first_sa : SessionAgentRec)
        (rest_sa : List SessionAgentRec) (agent : AgentRec) (resp : String),
      message.content = some content →
      db.sessions.find? (fun s => s.id == sid) = some session →
      db.session_agents.filter (fun sa => sa.session_id == sid) = first_sa :: rest_sa →
      (first_sa :: rest_sa).find? (fun sa => sa.is_manager) = none →
      db.agents.find? (fun a => a.id == first_sa.agent_id) = some agent →
      LangChainService.run_agent_workflow oracle agent.toData content = .ok resp →
      WebSocketManager.process_user_message oracle jsonLoads reg db sid cid message =
        ({ db with
            messages := db.messages ++
              [⟨db.next_id, content, sid, none, some session.owner_id, none, none, db.now⟩,
               ⟨db.next_id + 1, resp, sid, some first_sa.id, none, some db.next_id,
                 none, db.now⟩],
            next_id := db.next_id + 2 },
         WebSocketManager.broadcast_agent_message reg sid
           (AgentResponseMsg.toJson ⟨db.next_id + 1, resp, agent.name, agent.role, db.now⟩))) ∧
    (∀ (oracle : Oracle) (jsonLoads : JsonLoads) (reg : Registry) (db : DB)
        (sid : Nat) (cid : String) (message : WireMessage) (content : String)
        (session : SessionRec) (first_sa : SessionAgentRec)
        (rest_sa : List SessionAgentRec) (mgr_sa : SessionAgentRec) (mgr : AgentRec),
      message.content = some content →
      db.sessions.find? (fun s => s.id == sid) = some session →
      db.session_agents.filter (fun sa => sa.session_id == sid) = first_sa :: rest_sa →
      (first_sa :: rest_sa).find? (fun sa => sa.is_manager) = some mgr_sa →
      db.agents.find? (fun a => a.id == mgr_sa.agent_id) = some mgr →
      LangChainService.run_manager_workflow oracle jsonLoads content
        (availableAgents db (first_sa :: rest_sa)) = .ok parseFailurePlan →
      WebSocketManager.process_user_message oracle jsonLoads reg db sid cid message =
        ({ db with
            messages := db.messages ++
              [⟨db.next_id, content, sid, none, some session.owner_id, none, none, db.now⟩],
            next_id := db.next_id + 1 }, [])) := by
  constructor
  · intro oracle jsonLoads reg db sid cid message content session first_sa rest_sa
      agent resp hc hs hfil hnomgr hag hrun
    unfold WebSocketManager.process_user_message
    simp [hc, hs, hfil, hnomgr, hag, hrun]
  · intro oracle jsonLoads reg db sid cid message content session first_sa rest_sa
      mgr_sa mgr hc hs hfil hmgr hag hrun
    unfold WebSocketManager.process_user_message
    simp [hc, hs, hfil, hmgr, hag, hrun, parseFailurePlan, Json.getField, pyIterate,
      processAssignments]

/-- C4 witness: both branches evaluated concretely — one response without
a manager, zero responses with a manager and a parse-failed plan. -/
theorem single_agent_fallback_only_without_manager_witness :
    WebSocketManager.process_user_message (fun _ => .ok "resp") (fun _ => none)
        exReg noMgrPlanDB 1 "c1" ⟨none, some "hello", none, none⟩ =
      ({ noMgrPlanDB with
          messages := noMgrPlanDB.messages ++
            [⟨noMgrPlanDB.next_id, "hello", 1, none, some 1, none, none, noMgrPlanDB.now⟩,
             ⟨noMgrPlanDB.next_id + 1, "M (mgr): resp", 1, some 50, none,
               some noMgrPlanDB.next_id, none, noMgrPlanDB.now⟩],
          next_id := noMgrPlanDB.next_id + 2 },
       WebSocketManager.broadcast_agent_message exReg 1
         (AgentResponseMsg.toJson
           ⟨noMgrPlanDB.next_id + 1, "M (mgr): resp", "M", "mgr", noMgrPlanDB.now⟩)) ∧
    WebSocketManager.process_user_message (fun _ => .ok "not json") (fun _ => none)
        exReg managerPlanDB 1 "c1" ⟨none, some "hello", none, none⟩ =
      ({ managerPlanDB with
          messages := managerPlanDB.messages ++
            [⟨managerPlanDB.next_id, "hello", 1, none, some 1, none, none,
              managerPlanDB.now⟩],
          next_id := managerPlanDB.next_id + 1 }, []) :=
  ⟨single_agent_fallback_only_without_manager.1 (fun _ => .ok "resp") (fun _ => none)
      exReg noMgrPlanDB 1 "c1" ⟨none, some "hello", none, none⟩ "hello"
      ⟨1, "s", "", 1, true⟩ ⟨50, 1, 10, false⟩ [⟨51, 1, 11, false⟩]
      ⟨10, "M", "mgr", "p", "si", Json.null, 1⟩ "M (mgr): resp" rfl rfl rfl rfl rfl rfl,
   single_agent_fallback_only_without_manager.2 (fun _ => .ok "not json") (fun _ => none)
      exReg managerPlanDB 1 "c1" ⟨none, some "hello", none, none⟩ "hello"
      ⟨1, "s", "", 1, true⟩ ⟨50, 1, 10, true⟩ [⟨51, 1, 11, false⟩]
      ⟨50, 1, 10, true⟩ ⟨10, "M", "mgr", "p", "si", Json.null, 1⟩ rfl rfl rfl rfl rfl rfl⟩
